import Mathlib

/-!
Verification of the Air_defense_UI repository core: the laser power
simulation (`gui/components/laser_power_controller.py`), the system
activation handlers and shoot command (`gui/main_window.py`), and the PID
input validation (`gui/components/pid_tuning_panel.py`), shallowly embedded
in Lean 4.  Machine integers of the source are modelled as `Int`; the
random draws `random.randint(a, b)` are modelled as explicitly quantified
integer arguments constrained to `[a, b]`; fallible parsing is modelled
with `Option`.
-/

namespace AirDefense

/-! ## Python primitives used by the source -/

/-- ASCII decimal digit test, as used by the Python `int` and `float`
string parsers. -/
def isAsciiDigit (c : Char) : Bool :=
  '0' ≤ c && c ≤ '9'

/-- Whitespace as stripped by the Python `int(...)` and `float(...)`
conversions at both ends of the string. -/
def isPyWs (c : Char) : Bool :=
  c = ' ' || c = '\t' || c = '\n' || c = '\r'

/-- Drops leading whitespace from a character list. -/
def dropWs : List Char → List Char
  | [] => []
  | c :: cs => if isPyWs c then dropWs cs else c :: cs

/-- Strips whitespace from both ends of a character list. -/
def trimWs (cs : List Char) : List Char :=
  ((dropWs cs.reverse).reverse |> dropWs)

/-- Numeric value of a nonempty all-digit character list, `none` otherwise. -/
def decDigitsVal (cs : List Char) : Option Nat :=
  if cs ≠ [] && cs.all isAsciiDigit then
    some (cs.foldl (fun a c => a * 10 + (c.toNat - '0'.toNat)) 0)
  else
    none

/-- Model of the Python `int(s)` conversion on strings: strips surrounding
whitespace, accepts an optional sign followed by at least one decimal
digit, and raises `ValueError` (here: `none`) otherwise.  Digit-group
underscores accepted by CPython are not modelled; every theorem below that
involves parsing is stated relative to this function. -/
def pyIntParse (s : String) : Option Int :=
  match trimWs s.toList with
  | '+' :: cs => (decDigitsVal cs).map (fun n => (n : Int))
  | '-' :: cs => (decDigitsVal cs).map (fun n => -(n : Int))
  | cs => (decDigitsVal cs).map (fun n => (n : Int))

/-- Model of the Python `int(x / y)` on integers `x`, `y`: true division
followed by truncation toward zero, which for the magnitudes arising here
(quotients of values in `[-100, 100]` by `5`) is exactly `Int.tdiv`. -/
def pyIntDiv (x y : Int) : Int :=
  Int.tdiv x y

/-- Consumes a maximal run of decimal digits, returning how many were
consumed and the rest of the list. -/
def takeDigits : List Char → Nat × List Char
  | [] => (0, [])
  | c :: cs =>
    if isAsciiDigit c then
      let r := takeDigits cs
      (r.1 + 1, r.2)
    else
      (0, c :: cs)

/-- Consumes an optional `+` or `-` sign. -/
def dropSign : List Char → List Char
  | '+' :: cs => cs
  | '-' :: cs => cs
  | cs => cs

/-- Recognises the mantissa of a Python float literal: `digits`,
`digits . digits?`, or `. digits`; returns the unconsumed rest, or `none`
when no valid mantissa is present. -/
def floatMantissaRest (cs : List Char) : Option (List Char) :=
  let r1 := takeDigits cs
  match r1.2 with
  | '.' :: cs2 =>
    let r2 := takeDigits cs2
    if r1.1 + r2.1 > 0 then some r2.2 else none
  | _ => if r1.1 > 0 then some r1.2 else none

/-- Recognises an optional exponent part (`e`/`E`, optional sign, at least
one digit) and requires the string to end there. -/
def floatExpRest : List Char → Bool
  | [] => true
  | 'e' :: cs => let r := takeDigits (dropSign cs); r.1 > 0 && r.2.isEmpty
  | 'E' :: cs => let r := takeDigits (dropSign cs); r.1 > 0 && r.2.isEmpty
  | _ => false

/-- Model of whether the Python `float(s)` conversion succeeds: surrounding
whitespace is stripped, then an optional sign, then either a finite
decimal literal with optional exponent, or one of the special words
`inf`, `infinity`, `nan` (case-insensitive).  Digit-group underscores are
not modelled; every theorem below is stated relative to this predicate. -/
def pyFloatParses (s : String) : Bool :=
  let cs := dropSign (trimWs s.toList)
  let low := cs.map Char.toLower
  (match floatMantissaRest cs with
   | some r => floatExpRest r
   | none => false)
  || low = ['i', 'n', 'f']
  || low = ['i', 'n', 'f', 'i', 'n', 'i', 't', 'y']
  || low = ['n', 'a', 'n']

/-! ## LaserPowerController (gui/components/laser_power_controller.py) -/

/-- Model of the Python `text.replace('%', '')` applied to the current
power label: removes every `%` character. -/
def stripPercentAll (s : String) : String :=
  String.mk (s.toList.filter (fun c => c ≠ '%'))

/-- Modelled from the spec: the claim C10 wording reads the label
preprocessing as stripping a trailing `%` suffix only (the source instead
removes every `%` character); this definition follows the claim wording,
for comparison with `stripPercentAll`. -/
def stripPercentSuffix (s : String) : String :=
  match s.toList.reverse with
  | '%' :: rest => String.mk rest.reverse
  | _ => s

/-- Modelled from the spec: `round(diff/5)` as written in the spec update
rule, rounding `diff / 5` to the nearest integer (for integer `diff` the
quotient `diff / 5` is never an exact half, so the tie-breaking rule is
irrelevant and round-half-up agrees with the Python banker rounding). -/
def specRound5 (diff : Int) : Int :=
  (2 * diff + 5) / 10

/-- The adjustment computed on the active far-from-target branch, source
line `adjustment = int(diff / 5) or (1 if diff > 0 else -1)`: the Python
`or` yields the right operand exactly when the left one is `0`. -/
def adjustment (diff : Int) : Int :=
  let q := pyIntDiv diff 5
  if q = 0 then (if 0 < diff then 1 else -1) else q

/-- The numeric core of `update_current_power_display` (source lines
95-105): given the activation flag, the parsed current value, the target
value, and the three possible random draws of one tick — `n1` for
`random.randint(-1, 1)` on the active near-target branch, `n2` for
`random.randint(1, 3)` and `n3` for `random.randint(-1, 1)` on the
inactive branch — returns the new simulated value after the final clamp
`max(0, min(100, new_simulated_val))`. -/
def powerTick (active : Bool) (current target n1 n2 n3 : Int) : Int :=
  let newVal :=
    if active then
      let diff := target - current
      if 2 < diff.natAbs then
        current + adjustment diff
      else
        current + n1
    else
      max 0 (current - n2) + n3
  max 0 (min 100 newVal)

/-- The full `update_current_power_display` (source lines 85-108): parses
the current power label text with `int(text.replace('%', ''))`, falling
back to `0` on `ValueError`, then applies the numeric tick.  The target is
read from the slider and passed in; the returned value is what the label
is set to (without the `%` rendering). -/
def update_current_power_display
    (active : Bool) (labelText : String) (target n1 n2 n3 : Int) : Int :=
  let current := (pyIntParse (stripPercentAll labelText)).getD 0
  powerTick active current target n1 n2 n3

/-- Model of a Qt `QSlider` as configured in `_initUI`: an integer value
together with the range bounds.  Qt documented semantics: `setValue`
clamps its argument to the configured range.  The target power slider is
created with `setRange(0, 100)` and `setValue(50)`. -/
structure QSliderModel where
  minVal : Int
  maxVal : Int
  val : Int
  deriving DecidableEq, Repr

/-- Qt `QSlider.setValue`: stores the argument clamped to the range. -/
def QSliderModel.setValue (sl : QSliderModel) (v : Int) : QSliderModel :=
  { sl with val := max sl.minVal (min sl.maxVal v) }

/-- The target power slider as built in `_initUI` (source lines 44-46):
range `[0, 100]`, initial value `50`. -/
def initTargetPowerSlider : QSliderModel :=
  { minVal := 0, maxVal := 100, val := 50 }

/-- `LaserPowerController.get_target_power`: returns the slider value. -/
def get_target_power (sl : QSliderModel) : Int :=
  sl.val

/-! ## AirDefenseGUI (gui/main_window.py) -/

/-- The observable state of `AirDefenseGUI` relevant to the start, stop and
shoot handlers: the activation flag, the camera feed flag, the laser power
widget state, the accumulated log entries (message, is_warning), the
accumulated terminal lines, the sequence of messages published through the
ROS connector, the four health flags, and the enabled-state passed to the
control buttons. -/
structure GuiState where
  systemActive : Bool
  cameraFeedActive : Bool
  targetSlider : QSliderModel
  currentPowerText : String
  logEntries : List (String × Bool)
  terminalLines : List String
  rosCommands : List String
  healthEsp32 : Bool
  healthLaser : Bool
  healthMotors : Bool
  healthMovement : Bool
  buttonsActiveState : Bool
  deriving DecidableEq, Repr

/-- `AirDefenseGUI._start_system` (source lines 134-147): returns the state
unchanged when the system is already active; otherwise logs, flips the
flag, updates the buttons, appends the terminal messages (the
`QTimer.singleShot` callbacks are folded into the transition in their
scheduled order), sets all health statuses and publishes the `start`
system command. -/
def startSystem (s : GuiState) : GuiState :=
  if s.systemActive then s
  else
    { s with
      logEntries := s.logEntries ++ [("SYSTEM STARTING...", true)]
      systemActive := true
      buttonsActiveState := true
      terminalLines := s.terminalLines ++
        ["Attempting system start...", "Core modules initializing...",
         "ROS2 link active (simulated).", "System ACTIVE."]
      healthEsp32 := true
      healthLaser := true
      healthMotors := true
      healthMovement := true
      rosCommands := s.rosCommands ++ ["system:start"] }

/-- `AirDefenseGUI._stop_system` (source lines 149-164): returns the state
unchanged when the system is already inactive; otherwise logs, stops the
camera feed if active, flips the flag, updates the buttons, appends the
terminal messages (the `QTimer.singleShot` callbacks folded in order),
clears all health statuses and publishes the `stop` system command. -/
def stopSystem (s : GuiState) : GuiState :=
  if ¬ s.systemActive then s
  else
    { s with
      logEntries := s.logEntries ++ [("SYSTEM STOPPING...", true)]
      cameraFeedActive := false
      systemActive := false
      buttonsActiveState := false
      terminalLines := s.terminalLines ++
        ["Attempting system stop...", "Powering down modules...",
         "System INACTIVE."]
      healthEsp32 := false
      healthLaser := false
      healthMotors := false
      healthMovement := false
      rosCommands := s.rosCommands ++ ["system:stop"] }

/-- `AirDefenseGUI._handle_shoot_command` (source lines 181-189): when the
system is inactive, appends the warning log entry and terminal line and
returns without publishing anything; when active, logs the firing action
and publishes the `fire` laser action. -/
def handleShootCommand (s : GuiState) : GuiState :=
  if ¬ s.systemActive then
    { s with
      logEntries := s.logEntries ++ [("Cannot SHOOT: System INACTIVE.", true)]
      terminalLines := s.terminalLines ++ ["WARN: Cannot SHOOT: System INACTIVE."] }
  else
    { s with
      logEntries := s.logEntries ++ [("ACTION: FIRING LASER (Simulated)", true)]
      terminalLines := s.terminalLines ++ ["$ ACTION: FIRING"]
      rosCommands := s.rosCommands ++ ["laser_action:fire"] }

/-! ## PidTuningPanel (gui/components/pid_tuning_panel.py) -/

/-- The six PID input field texts, in the order
`(pan_p, pan_i, pan_d, tilt_p, tilt_i, tilt_d)` returned by
`get_pid_values_as_strings_tuple`. -/
structure PidInputs where
  panP : String
  panI : String
  panD : String
  tiltP : String
  tiltI : String
  tiltD : String
  deriving DecidableEq, Repr

/-- Outcome of `_on_apply_settings_clicked`: either the
`pid_settings_applied_signal` is emitted with the six validated strings, or
the error is reported through `log_message_requested` (message, warning
flag) and `terminal_message_requested` and no apply signal is emitted. -/
inductive PidApplyOutcome where
  | applied (panP panI panD tiltP tiltI tiltD : String)
  | rejected (logMsg : String) (logWarning : Bool) (termMsg : String)
  deriving DecidableEq, Repr

/-- `PidTuningPanel._on_apply_settings_clicked` (source lines 67-78): tries
`float(...)` on each of the six field texts; if all succeed, emits the
apply signal with exactly those strings, otherwise emits the error log and
terminal messages. -/
def onApplySettingsClicked (inp : PidInputs) : PidApplyOutcome :=
  if pyFloatParses inp.panP && pyFloatParses inp.panI && pyFloatParses inp.panD
      && pyFloatParses inp.tiltP && pyFloatParses inp.tiltI && pyFloatParses inp.tiltD then
    .applied inp.panP inp.panI inp.panD inp.tiltP inp.tiltI inp.tiltD
  else
    .rejected "Invalid PID: All P,I,D values must be numbers." true
      "ERROR: Invalid PID: All P,I,D values must be numbers."

/-- The ROS publications triggered by the apply outcome, per
`AirDefenseGUI._handle_pid_settings_applied` (main_window.py lines
201-208), which is connected to the apply signal: one publication per
motor carrying the validated value strings, and none at all when the
signal was not emitted. -/
def rosPidPublishes : PidApplyOutcome → List (String × String × String × String)
  | .applied a b c d e f => [("pan", a, b, c), ("tilt", d, e, f)]
  | .rejected _ _ _ => []

/-- A closed sample `GuiState` used to instantiate universally quantified
theorems: the activation flag and camera flag are the given booleans, the
widgets hold their initial values. -/
def sampleGuiState (active : Bool) : GuiState :=
  { systemActive := active
    cameraFeedActive := false
    targetSlider := initTargetPowerSlider
    currentPowerText := "0%"
    logEntries := []
    terminalLines := []
    rosCommands := []
    healthEsp32 := active
    healthLaser := active
    healthMotors := active
    healthMovement := active
    buttonsActiveState := active }

/-! ## Theorems -/

/-- C2: for every activation flag, every current value, every target in
`[0, 100]` and every outcome of the random draws, the current power after
one tick lies in `[0, 100]`. -/
theorem c2_power_tick_clamped (active : Bool) (c t n1 n2 n3 : Int)
    (_ht0 : 0 ≤ t) (_ht1 : t ≤ 100) :
    0 ≤ powerTick active c t n1 n2 n3 ∧ powerTick active c t n1 n2 n3 ≤ 100 := by
  have h : ∀ x : Int, 0 ≤ max 0 (min 100 x) ∧ max 0 (min 100 x) ≤ 100 := by
    intro x; omega
  exact h _

/-- Closed instance of `c2_power_tick_clamped` at a concrete state and
draw, with its hypotheses discharged by computation. -/
theorem c2_power_tick_clamped_witness :
    0 ≤ powerTick true 0 80 0 1 0 ∧ powerTick true 0 80 0 1 0 ≤ 100 :=
  c2_power_tick_clamped true 0 80 0 1 0 (by decide) (by decide)

/-- C1 (amended): for every state with `active = true`, current and target
in `[0, 100]` and `|target - current| > 2`, one tick adds to the current
value the Python `int(diff / 5)` — truncation of `diff / 5` toward zero —
when that quotient is nonzero, and otherwise an adjustment of magnitude 1;
the adjustment always has magnitude at least 1 and sign matching `diff`,
and the final value is the clamp of the sum to `[0, 100]`. -/
theorem c1_active_far_tick (c t n1 n2 n3 : Int)
    (_hc0 : 0 ≤ c) (_hc1 : c ≤ 100) (_ht0 : 0 ≤ t) (_ht1 : t ≤ 100)
    (hfar : 2 < (t - c).natAbs) :
    powerTick true c t n1 n2 n3 = max 0 (min 100 (c + adjustment (t - c)))
    ∧ (pyIntDiv (t - c) 5 ≠ 0 → adjustment (t - c) = pyIntDiv (t - c) 5)
    ∧ 1 ≤ (adjustment (t - c)).natAbs
    ∧ (0 < t - c → 0 < adjustment (t - c))
    ∧ (t - c < 0 → adjustment (t - c) < 0) := by
  refine ⟨?_, ?_, ?_, ?_, ?_⟩
  · simp only [powerTick, if_true, if_pos hfar]
  · intro hq
    simp only [adjustment, pyIntDiv] at hq ⊢
    rw [if_neg hq]
  · by_cases hq : pyIntDiv (t - c) 5 = 0
    · simp only [adjustment, pyIntDiv] at hq ⊢
      rw [if_pos hq]
      by_cases hd : 0 < t - c
      · rw [if_pos hd]; decide
      · rw [if_neg hd]; decide
    · simp only [adjustment, pyIntDiv] at hq ⊢
      rw [if_neg hq]
      omega
  · intro hd
    by_cases hq : pyIntDiv (t - c) 5 = 0
    · simp only [adjustment, pyIntDiv] at hq ⊢
      rw [if_pos hq, if_pos hd]; decide
    · have hnn : 0 ≤ Int.tdiv (t - c) 5 :=
        Int.tdiv_nonneg (le_of_lt hd) (by decide)
      simp only [adjustment, pyIntDiv] at hq ⊢
      rw [if_neg hq]
      omega
  · intro hd
    by_cases hq : pyIntDiv (t - c) 5 = 0
    · simp only [adjustment, pyIntDiv] at hq ⊢
      rw [if_pos hq, if_neg (by omega : ¬ 0 < t - c)]; decide
    · have hnn : 0 ≤ Int.tdiv (-(t - c)) 5 :=
        Int.tdiv_nonneg (by omega) (by decide)
      rw [Int.neg_tdiv] at hnn
      simp only [adjustment, pyIntDiv] at hq ⊢
      rw [if_neg hq]
      omega

/-- Closed instance of `c1_active_far_tick` at `current = 10`,
`target = 90`, with its hypotheses discharged by computation. -/
theorem c1_active_far_tick_witness :
    powerTick true 10 90 0 1 0 = max 0 (min 100 (10 + adjustment (90 - 10)))
    ∧ (pyIntDiv (90 - 10) 5 ≠ 0 → adjustment (90 - 10) = pyIntDiv (90 - 10) 5)
    ∧ 1 ≤ (adjustment ((90 : Int) - 10)).natAbs
    ∧ ((0 : Int) < 90 - 10 → 0 < adjustment (90 - 10))
    ∧ ((90 : Int) - 10 < 0 → adjustment (90 - 10) < 0) :=
  c1_active_far_tick 10 90 0 1 0 (by decide) (by decide) (by decide) (by decide)
    (by decide)

/-- C1 counterexample: at `active = true`, `current = 0`, `target = 8`
(both in `[0, 100]`, `|diff| = 8 > 2`) one tick yields `1`, while the
claimed update `current + round(diff / 5)` would yield `2`: the source
truncates `diff / 5` toward zero instead of rounding it. -/
theorem c1_round_counterexample :
    powerTick true 0 8 0 1 0 = 1 ∧ specRound5 (8 - 0) = 2 ∧
    powerTick true 0 8 0 1 0 ≠ max 0 (min 100 (0 + specRound5 (8 - 0))) := by
  decide

/-- C3: from `active = true`, `current = 0`, `target = 80`, one tick
yields `16` for every outcome of the random draws: the noise branch is not
taken since `|diff| = 80 > 2`. -/
theorem c3_tick_zero_to_eighty (n1 n2 n3 : Int) :
    powerTick true 0 80 n1 n2 n3 = 16 :=
  rfl

/-- C7: for every state with `active = false`, every draw `n2` of
`random.randint(1, 3)` and every draw `n3` of `random.randint(-1, 1)`, one
tick sets the current value to `max 0 (current - n2) + n3` clamped to
`[0, 100]`. -/
theorem c7_inactive_tick (c t n1 n2 n3 : Int)
    (_h2a : 1 ≤ n2) (_h2b : n2 ≤ 3) (_h3a : -1 ≤ n3) (_h3b : n3 ≤ 1) :
    powerTick false c t n1 n2 n3 = max 0 (min 100 (max 0 (c - n2) + n3)) :=
  rfl

/-- Closed instance of `c7_inactive_tick` at `current = 5`, draws `2` and
`-1`, with its hypotheses discharged by computation. -/
theorem c7_inactive_tick_witness :
    powerTick false 5 50 0 2 (-1) = max 0 (min 100 (max 0 (5 - 2) + -1)) :=
  c7_inactive_tick 5 50 0 2 (-1) (by decide) (by decide) (by decide) (by decide)

/-- C8: from `active = true`, `current = 49`, `target = 50`, one tick
takes the noise branch (`|diff| = 1 ≤ 2`) and, for every noise draw `n1`
in `[-1, 1]`, yields `49 + n1`, hence a value in `{48, 49, 50}`. -/
theorem c8_near_target_noise (n1 n2 n3 : Int) (h1 : -1 ≤ n1) (h2 : n1 ≤ 1) :
    powerTick true 49 50 n1 n2 n3 = 49 + n1 ∧
    (powerTick true 49 50 n1 n2 n3 = 48 ∨ powerTick true 49 50 n1 n2 n3 = 49 ∨
      powerTick true 49 50 n1 n2 n3 = 50) := by
  have h : powerTick true 49 50 n1 n2 n3 = max 0 (min 100 (49 + n1)) := rfl
  rw [h]
  omega

/-- Closed instance of `c8_near_target_noise` at draw `-1`, with its
hypotheses discharged by computation. -/
theorem c8_near_target_noise_witness :
    powerTick true 49 50 (-1) 1 0 = 49 + -1 ∧
    (powerTick true 49 50 (-1) 1 0 = 48 ∨ powerTick true 49 50 (-1) 1 0 = 49 ∨
      powerTick true 49 50 (-1) 1 0 = 50) :=
  c8_near_target_noise (-1) 1 0 (by decide) (by decide)

/-- C5: `_start_system` is a no-op when the system is already active, and
`_stop_system` is a no-op when the system is already inactive: the whole
state is returned unchanged. -/
theorem c5_start_stop_idempotent (s : GuiState) :
    (s.systemActive = true → startSystem s = s) ∧
    (s.systemActive = false → stopSystem s = s) := by
  constructor
  · intro h
    simp [startSystem, h]
  · intro h
    simp [stopSystem, h]

/-- Closed instance of `c5_start_stop_idempotent` on concrete active and
inactive states, with the premises discharged by computation. -/
theorem c5_start_stop_idempotent_witness :
    startSystem (sampleGuiState true) = sampleGuiState true ∧
    stopSystem (sampleGuiState false) = sampleGuiState false :=
  ⟨(c5_start_stop_idempotent (sampleGuiState true)).1 rfl,
   (c5_start_stop_idempotent (sampleGuiState false)).2 rfl⟩

/-- C6: when the system is inactive, `_handle_shoot_command` leaves the
activation flag, the target slider, the current power text and the
published ROS commands unchanged (in particular no fire action is
published), and reports the system-inactive condition in the log and
terminal. -/
theorem c6_shoot_inactive (s : GuiState) (h : s.systemActive = false) :
    (handleShootCommand s).systemActive = s.systemActive ∧
    (handleShootCommand s).targetSlider = s.targetSlider ∧
    (handleShootCommand s).currentPowerText = s.currentPowerText ∧
    (handleShootCommand s).rosCommands = s.rosCommands ∧
    (handleShootCommand s).logEntries =
      s.logEntries ++ [("Cannot SHOOT: System INACTIVE.", true)] ∧
    (handleShootCommand s).terminalLines =
      s.terminalLines ++ ["WARN: Cannot SHOOT: System INACTIVE."] := by
  simp [handleShootCommand, h]

/-- Closed instance of `c6_shoot_inactive` on a concrete inactive state,
with its hypothesis discharged by computation. -/
theorem c6_shoot_inactive_witness :
    (handleShootCommand (sampleGuiState false)).systemActive =
      (sampleGuiState false).systemActive ∧
    (handleShootCommand (sampleGuiState false)).targetSlider =
      (sampleGuiState false).targetSlider ∧
    (handleShootCommand (sampleGuiState false)).currentPowerText =
      (sampleGuiState false).currentPowerText ∧
    (handleShootCommand (sampleGuiState false)).rosCommands =
      (sampleGuiState false).rosCommands ∧
    (handleShootCommand (sampleGuiState false)).logEntries =
      (sampleGuiState false).logEntries ++ [("Cannot SHOOT: System INACTIVE.", true)] ∧
    (handleShootCommand (sampleGuiState false)).terminalLines =
      (sampleGuiState false).terminalLines ++ ["WARN: Cannot SHOOT: System INACTIVE."] :=
  c6_shoot_inactive (sampleGuiState false) rfl

/-- C4: for every slider configured with range `[0, 100]` (as the target
power slider is in `_initUI`) and every integer `v`, `setValue v` followed
by `get_target_power` returns `v` clamped to `[0, 100]`. -/
theorem c4_set_target_clamps (sl : QSliderModel) (v : Int)
    (hmin : sl.minVal = 0) (hmax : sl.maxVal = 100) :
    get_target_power (sl.setValue v) = max 0 (min 100 v) := by
  simp [get_target_power, QSliderModel.setValue, hmin, hmax]

/-- Closed instance of `c4_set_target_clamps` on the initial slider at
`v = 150`, with its hypotheses discharged by computation. -/
theorem c4_set_target_clamps_witness :
    get_target_power (initTargetPowerSlider.setValue 150) = max 0 (min 100 150) :=
  c4_set_target_clamps initTargetPowerSlider 150 rfl rfl

/-- C9: if some PID field text does not parse as a float, applying the
settings produces only the user-visible error messages and no apply
signal, so nothing is published to ROS; if all six parse, the apply signal
carries exactly the six field texts. -/
theorem c9_pid_validation (inp : PidInputs) :
    (¬ (pyFloatParses inp.panP ∧ pyFloatParses inp.panI ∧ pyFloatParses inp.panD ∧
        pyFloatParses inp.tiltP ∧ pyFloatParses inp.tiltI ∧ pyFloatParses inp.tiltD) →
      onApplySettingsClicked inp =
        .rejected "Invalid PID: All P,I,D values must be numbers." true
          "ERROR: Invalid PID: All P,I,D values must be numbers."
      ∧ rosPidPublishes (onApplySettingsClicked inp) = []) ∧
    ((pyFloatParses inp.panP ∧ pyFloatParses inp.panI ∧ pyFloatParses inp.panD ∧
        pyFloatParses inp.tiltP ∧ pyFloatParses inp.tiltI ∧ pyFloatParses inp.tiltD) →
      onApplySettingsClicked inp =
        .applied inp.panP inp.panI inp.panD inp.tiltP inp.tiltI inp.tiltD) := by
  constructor
  · intro h
    have hb : (pyFloatParses inp.panP && pyFloatParses inp.panI && pyFloatParses inp.panD
        && pyFloatParses inp.tiltP && pyFloatParses inp.tiltI && pyFloatParses inp.tiltD)
        = false := by
      rcases Bool.eq_false_or_eq_true (pyFloatParses inp.panP && pyFloatParses inp.panI
          && pyFloatParses inp.panD && pyFloatParses inp.tiltP && pyFloatParses inp.tiltI
          && pyFloatParses inp.tiltD) with hb | hb
      · exact absurd (by simpa [Bool.and_eq_true, and_assoc] using hb) h
      · exact hb
    constructor
    · simp [onApplySettingsClicked, hb]
    · simp [onApplySettingsClicked, hb, rosPidPublishes]
  · intro h
    obtain ⟨h1, h2, h3, h4, h5, h6⟩ := h
    simp [onApplySettingsClicked, h1, h2, h3, h4, h5, h6]

/-- Closed instance of `c9_pid_validation`: a tuple whose last field text
is not numeric is rejected and publishes nothing, and an all-numeric tuple
is applied verbatim; the premises are discharged by computation. -/
theorem c9_pid_validation_witness :
    (onApplySettingsClicked ⟨"1.0", "0.1", "0.01", "1.0", "0.1", "abc"⟩ =
        .rejected "Invalid PID: All P,I,D values must be numbers." true
          "ERROR: Invalid PID: All P,I,D values must be numbers."
      ∧ rosPidPublishes
          (onApplySettingsClicked ⟨"1.0", "0.1", "0.01", "1.0", "0.1", "abc"⟩) = []) ∧
    onApplySettingsClicked ⟨"1.0", "0.1", "0.01", "2.0", "0.2", "0.02"⟩ =
      .applied "1.0" "0.1" "0.01" "2.0" "0.2" "0.02" :=
  ⟨(c9_pid_validation ⟨"1.0", "0.1", "0.01", "1.0", "0.1", "abc"⟩).1 (by decide),
   (c9_pid_validation ⟨"1.0", "0.1", "0.01", "2.0", "0.2", "0.02"⟩).2 (by decide)⟩

/-- C10 (amended): if the current power label text, after removing every
`%` character, does not parse as an integer, one tick proceeds exactly as
the numeric update rule from `current = 0`. -/
theorem c10_unparsable_text_as_zero (active : Bool) (text : String)
    (target n1 n2 n3 : Int)
    (h : pyIntParse (stripPercentAll text) = none) :
    update_current_power_display active text target n1 n2 n3 =
      powerTick active 0 target n1 n2 n3 := by
  simp [update_current_power_display, h]

/-- Closed instance of `c10_unparsable_text_as_zero` at the label text
`abc`, with its hypothesis discharged by computation. -/
theorem c10_unparsable_text_as_zero_witness :
    update_current_power_display false "abc" 50 0 1 0 = powerTick false 0 50 0 1 0 :=
  c10_unparsable_text_as_zero false "abc" 50 0 1 0 (by decide)

/-- C10 counterexample: the label text `5%0` has no trailing `%` and does
not parse as an integer, so under the claim as stated the tick would
proceed from `current = 0` and (with `target = 100`) yield `20`; the
source instead removes every `%` character, parses `50`, and yields `60`. -/
theorem c10_suffix_counterexample :
    pyIntParse (stripPercentSuffix "5%0") = none ∧
    update_current_power_display true "5%0" 100 0 1 0 = 60 ∧
    powerTick true 0 100 0 1 0 = 20 ∧
    update_current_power_display true "5%0" 100 0 1 0 ≠ powerTick true 0 100 0 1 0 := by
  decide

end AirDefense
